import Mathlib

/-!
Verification of the CubeCobra draft/redraft and queue routes.

This file embeds, as pure Lean functions, the route handlers relevant to the
frozen claims:

* the redraft route (cube API router, lines 466-531 of the cube API source):
  seat-parameter parsing and validation, seat rotation, seat clearing,
  human-seat assignment, and the save of the new draft;
* the featured-queue unqueue and move routes (src/routes/admin_routes.js,
  lines 749-808), together with a model of the compare-and-swap
  `updateFeatured` wrapper;
* the update-by-index card route and the bulk card-update route (cube API
  router, lines 664-816);
* the pack generator (modelled from the spec, sections 4.1-4.2, since
  serverjs/cubefn.js is not among the sources).

JavaScript numbers that hold card positions, ids and seeds are modelled as
`Nat`/`Int`; JS `parseInt(s, 10)` is modelled exactly (longest leading digit
run after optional sign, `none` for NaN); fallible routes return explicit
result types.  Persistence is modelled as an explicit id-indexed store where
a claim is about what is and is not written back.
-/

namespace CubeCobra

/-! ## Data model -/

/-- A user, as the routes see it: an id and a username. -/
structure User where
  id : Nat
  username : String
  deriving DecidableEq

/-- One seat of a draft.  `bot` is `none` for a human seat and `some weights`
for a bot seat (the route assigns the fresh descriptor `some []`); card ids
are `Nat`. -/
structure Seat where
  userid : Option Nat
  name : String
  bot : Option (List Nat)
  drafted : List Nat
  sideboard : List Nat
  pickorder : List Nat
  trashorder : List Nat
  deriving DecidableEq

/-- A draft session: the fields of the Draft model that the redraft route
reads and writes (cube reference, ordered seats, basic-land list, the
`initial_state` seed sequence and the flattened card pool). -/
structure Draft where
  cube : Nat
  seats : List Seat
  basics : List Nat
  initial_state : List Nat
  cards : List Nat
  deriving DecidableEq

/-! ## JS `parseInt(s, 10)` -/

/-- Value of a digit run, most significant first (JS digit accumulation). -/
def digitsToNat (cs : List Char) : Nat :=
  cs.foldl (fun a c => a * 10 + (c.toNat - 48)) 0

/-- Longest leading digit run; `none` when there is no leading digit
(JS `parseInt` returns NaN in that case). -/
def parseDigits (cs : List Char) : Option Nat :=
  let ds := cs.takeWhile Char.isDigit
  if ds.isEmpty then none else some (digitsToNat ds)

/-- Model of JS `parseInt(s, 10)`: skip leading whitespace, take an optional
sign, then the longest run of decimal digits; `none` models NaN. -/
def parseIntBase10 (s : String) : Option Int :=
  match s.toList.dropWhile Char.isWhitespace with
  | '-' :: rest => (parseDigits rest).map (fun n => -(n : Int))
  | '+' :: rest => (parseDigits rest).map (fun n => (n : Int))
  | rest => (parseDigits rest).map (fun n => (n : Int))

/-- Spec-side notion used by claim C5: the seat parameter *is* an integer,
i.e. the whole string is an optionally-signed decimal numeral. -/
def decimalIntOfString? (s : String) : Option Int :=
  match s.toList with
  | '-' :: rest =>
      if !rest.isEmpty && rest.all Char.isDigit then some (-(digitsToNat rest : Int))
      else none
  | cs =>
      if !cs.isEmpty && cs.all Char.isDigit then some ((digitsToNat cs : Int))
      else none

/-! ## Redraft route (cube API router, lines 466-531) -/

/-- Modelled from the spec: `rotateArrayLeft` is imported from `./helper`,
which is not among the sources.  The spec describes it as a left rotation of
the seat array by `n` positions, so that the element that was at index `n`
moves to position 0; `List.rotate` is exactly that rotation. -/
def rotateArrayLeft (l : List α) (n : Nat) : List α :=
  l.rotate n

/-- Modelled from the spec: `createPool` is imported from `./helper`, which
is not among the sources.  The spec requires every seat's drafted and
sideboard pools to be initialized "to empty ordered sequences", so the pool
is modelled as an empty card list. -/
def createPool : List Nat :=
  []

/-- Line 490 of the cube API source: `draft.seats[seat].bot = null` (a write
that the clearing loop below overwrites).  Out-of-range indices leave the
list unchanged. -/
def botNullAt (l : List Seat) (i : Nat) : List Seat :=
  match l[i]? with
  | none => l
  | some s => l.set i { s with bot := none }

/-- Body of the clearing loop, lines 495-501: every seat gets a fresh bot
descriptor and empty drafted/sideboard/pickorder/trashorder lists. -/
def clearSeat (s : Seat) : Seat :=
  { s with
    bot := some []
    drafted := createPool
    sideboard := createPool
    pickorder := []
    trashorder := [] }

/-- The acting viewer's id for seat 0 (line 503): the user's id, or `none`
when no viewer is present. -/
def seatViewerId (user : Option User) : Option Nat :=
  user.map User.id

/-- The acting viewer's display name for seat 0 (line 504): the username, or
the anonymous placeholder. -/
def seatViewerName (user : Option User) : String :=
  match user with
  | some u => u.username
  | none => "Anonymous"

/-- Lines 488-501: copy of the seat list, left rotation by `seat`, the
(dead) bot write at index `seat`, then the loop clearing every seat. -/
def clearedSeats (seats : List Seat) (seat : Nat) : List Seat :=
  (botNullAt (rotateArrayLeft seats seat) seat).map clearSeat

/-- Lines 488-504: the seat list of the new draft.  After rotation and
clearing, seat 0 becomes the human seat: bot `none`, the acting viewer's id
and name (lines 502-504). -/
def redraftSeats (seats : List Seat) (seat : Nat) (user : Option User) : List Seat :=
  match clearedSeats seats seat with
  | [] => []
  | s0 :: rest =>
      { s0 with bot := none, userid := seatViewerId user, name := seatViewerName user } :: rest

/-- Lines 486-504: the new draft built from the source draft.  `cube`,
`basics` and `cards` are copied by reference, `initial_state` by `slice()`
(same values), and the seats go through `redraftSeats`. -/
def redraftDraft (src : Draft) (seat : Nat) (user : Option User) : Draft :=
  { cube := src.cube
    seats := redraftSeats src.seats seat user
    basics := src.basics
    initial_state := src.initial_state
    cards := src.cards }

/-- Outcome of the redraft route: the three early-return redirects and the
success response. -/
inductive RedraftResult where
  | noDraft
  | invalidSeat
  | cubeGone
  | success (d : Draft)
  deriving DecidableEq

/-- Lines 466-506 of the cube API source.  The draft lookup result, the
seat URL parameter (a string, parsed with `parseInt(seat, 10)`), the acting
user and the cube-viewability check are the inputs; the checks run in source
order: missing draft, then `!Number.isInteger(seat) || seat < 0 || seat >=
srcDraft.seats.length`, then cube viewability, then the build of the new
draft. -/
def redraftRoute (srcDraft : Option Draft) (seatParam : String) (user : Option User)
    (cubeViewable : Bool) : RedraftResult :=
  match srcDraft with
  | none => RedraftResult.noDraft
  | some src =>
      match parseIntBase10 seatParam with
      | none => RedraftResult.invalidSeat
      | some z =>
          if z < 0 ∨ (src.seats.length : Int) ≤ z then RedraftResult.invalidSeat
          else if ¬cubeViewable then RedraftResult.cubeGone
          else RedraftResult.success (redraftDraft src z.toNat user)

/-- The route against the persistent store (drafts keyed by id): the source
draft is read at `srcId`; on success the new draft is saved under the fresh
id `newId` (`new Draft()` mints an id distinct from every stored one) and no
write is issued against any other id; on every failure path nothing is
written. -/
def redraftSave (store : Nat → Option Draft) (srcId newId : Nat) (seatParam : String)
    (user : Option User) (cubeViewable : Bool) : (Nat → Option Draft) × RedraftResult :=
  match redraftRoute (store srcId) seatParam user cubeViewable with
  | RedraftResult.success d =>
      (fun i => if i = newId then some d else store i, RedraftResult.success d)
  | r => (store, r)

/-- Modelled from the spec: the Draft model (models/draft, not among the
sources) stores no explicit lifecycle flag; the spec's `complete` state
("becomes immutable ('complete') once all seats finish") is modelled as
every card of the flattened pool having been picked or trashed by some
seat. -/
def draftComplete (d : Draft) : Bool :=
  d.cards.length = (d.seats.map (fun s => s.pickorder.length + s.trashorder.length)).sum

/-! ## Featured queue routes (src/routes/admin_routes.js, lines 749-808) -/

/-- An entry of the featured queue: a (cube, owner) pair. -/
structure QueueEntry where
  cubeID : Nat
  ownerID : Nat
  deriving DecidableEq

/-- Modelled from the spec: `updateFeatured` (serverjs/featuredQueue, not
among the sources) applies the transform to the current queue snapshot and
persists the result atomically; when the transform throws a domain error the
update reports failure and the queue is left unchanged (compare-and-swap
with rollback on constraint violation, spec sections 3 and 5). -/
def updateFeatured (queue : List QueueEntry)
    (transform : List QueueEntry → Except String (List QueueEntry × α)) :
    List QueueEntry × Except String α :=
  match transform queue with
  | Except.error e => (queue, Except.error e)
  | Except.ok (q, a) => (q, Except.ok a)

/-- Transform of the unqueue route, admin_routes.js lines 755-764:
`findIndex` of the cube (the JS `-1` is `queue.length` here), the not-found
and currently-featured errors, then `splice(index, 1)`, whose value (the
one-element list of removed entries) is the transform's return value. -/
def unqueueTransform (queue : List QueueEntry) (cubeId : Nat) :
    Except String (List QueueEntry × List QueueEntry) :=
  let index := queue.findIdx (fun c => c.cubeID == cubeId)
  if index = queue.length then Except.error ("Cube not found in queue")
  else if index < 2 then Except.error ("Cannot remove currently featured cube from queue")
  else Except.ok (queue.eraseIdx index, (queue.drop index).take 1)

/-- The unqueue route body (lines 749-764): the transform run under the
compare-and-swap wrapper.  First component: the queue after the update;
second: the reported outcome. -/
def unqueueRoute (queue : List QueueEntry) (cubeId : Nat) :
    List QueueEntry × Except String (List QueueEntry) :=
  updateFeatured queue (fun q => unqueueTransform q cubeId)

/-- Transform of the move route, admin_routes.js lines 795-801 (indices are
already decremented to zero-based): position check of the cube at `src`,
then the target bound check `queue.length <= to`, then `splice(from, 1)`
followed by `splice(to, 0, spliced)`. -/
def moveTransform (queue : List QueueEntry) (cubeId : Nat) (src dst : Nat) :
    Except String (List QueueEntry × Unit) :=
  if h : src < queue.length then
    if (queue.get ⟨src, h⟩).cubeID ≠ cubeId then
      Except.error ("Cube is not at expected position in queue")
    else if queue.length ≤ dst then
      Except.error ("Target position is higher than cube length")
    else
      Except.ok ((queue.eraseIdx src).insertIdx dst (queue.get ⟨src, h⟩), ())
  else Except.error ("Cube is not at expected position in queue")

/-- The move route body, admin_routes.js lines 781-808.  The validators of
lines 784-786 require the `from` and `to` body fields to be integers
strictly greater than 2 in their human-readable 1-based form ("Cannot move
currently featured cube" / "Cannot move cube to featured position");
`flashValidationErrors` leaves `req.validated` unset on failure and the
route redirects without running the update (express-validator collects
every failed message; the model reports the first in validator order).
When validation passes, both indices are decremented to zero-based (lines
790-793) and the transform runs under the compare-and-swap wrapper. -/
def moveRoute (queue : List QueueEntry) (cubeId : Nat) (fromParam toParam : Int) :
    List QueueEntry × Except String Unit :=
  if fromParam ≤ 2 then (queue, Except.error ("Cannot move currently featured cube"))
  else if toParam ≤ 2 then (queue, Except.error ("Cannot move cube to featured position"))
  else
    updateFeatured queue
      (fun q => moveTransform q cubeId (fromParam - 1).toNat (toParam - 1).toNat)

/-! ## Update-by-index card route (cube API router, lines 664-737) -/

/-- The cube-local card fields that the routes read and compare (the card
snapshot shape of the update routes). -/
structure CubeCard where
  cardID : String
  status : String
  cmc : Int
  type_line : String
  colors : List String
  tags : List String
  finish : String
  deriving DecidableEq

/-- Modelled from the spec: `cardsAreEquivalent` (serverjs/cubefn.js, not
among the sources) decides whether the caller's card snapshot matches the
stored card.  Per the unit tests shipped with the sources (appended to
src/routes/admin_routes.js) it compares the cube-local fields — cardID,
status, cmc, type_line, tags, colors, finish — and ignores any other key. -/
def cardsAreEquivalent (a b : CubeCard) : Bool :=
  a.cardID == b.cardID && a.status == b.status && a.cmc == b.cmc &&
    a.type_line == b.type_line && a.tags == b.tags && a.colors == b.colors &&
    a.finish == b.finish

/-- Lines 707-709: `if (!card.type_line) card.type_line =
carddb.cardFromId(card.cardID).type` — a missing (empty) stored type line is
defaulted to the canonical type from the card index before the equivalence
check.  `typeFromId` is the card-index lookup. -/
def normalizeTypeLine (typeFromId : String → String) (c : CubeCard) : CubeCard :=
  if c.type_line = "" then { c with type_line := typeFromId c.cardID } else c

/-- A field of the `updated` request body: absent, explicit JSON null, or a
value (lines 718-727 treat absent and null differently). -/
inductive JsField (α : Type) where
  | absent
  | null
  | val (v : α)
  deriving DecidableEq

/-- The `updated` request body of the update-by-index route. -/
structure UpdatedCard where
  cardID : JsField String
  status : JsField String
  cmc : JsField Int
  type_line : JsField String
  colors : JsField (List String)
  tags : JsField (List String)
  finish : JsField String
  deriving DecidableEq

/-- Lines 718-727 for one field: an absent key is filled from the stored
card; an explicit null key is deleted, so the persistence layer falls back
to the schema default (`defaults`, the Cube model being outside the
sources); a present value wins. -/
def mergeField (defaults cur : α) : JsField α → α
  | JsField.absent => cur
  | JsField.null => defaults
  | JsField.val v => v

/-- Lines 718-728: the card written at the index, built from the (already
normalized) stored card and the request's `updated` body. -/
def mergeCard (defaults card : CubeCard) (updated : UpdatedCard) : CubeCard :=
  { cardID := mergeField defaults.cardID card.cardID updated.cardID
    status := mergeField defaults.status card.status updated.status
    cmc := mergeField defaults.cmc card.cmc updated.cmc
    type_line := mergeField defaults.type_line card.type_line updated.type_line
    colors := mergeField defaults.colors card.colors updated.colors
    tags := mergeField defaults.tags card.tags updated.tags
    finish := mergeField defaults.finish card.finish updated.finish }

/-- Outcome of the update-by-index route after the auth checks. -/
inductive UpdateCardResult where
  | noSuchCard
  | notEquivalent
  | success (cards : List CubeCard)
  deriving DecidableEq

/-- Lines 699-732: the bound check `src.index >= cube.cards.length`
(status 400, no such card), the type-line normalization of the stored card,
the equivalence check of the caller's snapshot against it (status 400, cards
not equivalent), and on success the replacement `cube.cards[src.index] =
updated` (merged) followed by the save.  The failure paths return before any
save, so only the success outcome carries a card list. -/
def updateCard (typeFromId : String → String) (defaults : CubeCard)
    (cards : List CubeCard) (index : Nat) (src : CubeCard) (updated : UpdatedCard) :
    UpdateCardResult :=
  if h : index < cards.length then
    let card := normalizeTypeLine typeFromId (cards.get ⟨index, h⟩)
    if cardsAreEquivalent src card then
      UpdateCardResult.success (cards.set index (mergeCard defaults card updated))
    else UpdateCardResult.notEquivalent
  else UpdateCardResult.noSuchCard

/-- The persisted card list after the route: the failure paths return before
`cube.save()`, so the stored list changes only on success. -/
def updateCardApply (typeFromId : String → String) (defaults : CubeCard)
    (cards : List CubeCard) (index : Nat) (src : CubeCard) (updated : UpdatedCard) :
    List CubeCard × UpdateCardResult :=
  match updateCard typeFromId defaults cards index src updated with
  | UpdateCardResult.success l => (l, UpdateCardResult.success l)
  | r => (cards, r)

/-! ## Bulk card-update route (cube API router, lines 739-816) -/

/-- The `updated` body of the bulk route.  `Option.none` models an absent or
JS-falsy field (the route guards every write with `if (updated.field)`); a
present empty array is truthy in JS, so `some []` still triggers the colors
write.  The tag updates (`$addToSet`/`$pullAll`, lines 795-808) are outside
the modelled fragment — the claims concern the `$set` writes. -/
structure BulkUpdate where
  status : Option String
  cmc : Option Int
  type_line : Option String
  colors : Option (List String)
  colorC : Bool
  finish : Option String
  deriving DecidableEq

/-- The five color letters, as in `[...'WUBRG']` (line 787). -/
def wubrg : List String :=
  ["W", "U", "B", "R", "G"]

/-- Lines 786-791: the value the `$set` document ends up holding for
`cards.index.colors`.  A supplied colors array is filtered to the WUBRG
letters; a supplied colorless flag overwrites the same `$set` key with the
empty list (the later assignment to the same key wins); otherwise the key is
not set. -/
def colorsWrite (u : BulkUpdate) : Option (List String) :=
  let afterColors : Option (List String) :=
    match u.colors with
    | some cs => some (cs.filter (fun c => wubrg.contains c))
    | none => none
  if u.colorC then some [] else afterColors

/-- Lines 777-779: the status `$set` write, guarded by JS truthiness (an
empty string is falsy and does not write). -/
def setStatusW (u : BulkUpdate) (c : CubeCard) : CubeCard :=
  match u.status with
  | some s => if s = "" then c else { c with status := s }
  | none => c

/-- Lines 780-782: the cmc `$set` write (a zero cmc is falsy and does not
write). -/
def setCmcW (u : BulkUpdate) (c : CubeCard) : CubeCard :=
  match u.cmc with
  | some v => if v = 0 then c else { c with cmc := v }
  | none => c

/-- Lines 783-785: the type-line `$set` write. -/
def setTypeLineW (u : BulkUpdate) (c : CubeCard) : CubeCard :=
  match u.type_line with
  | some t => if t = "" then c else { c with type_line := t }
  | none => c

/-- Lines 786-791: the colors `$set` write (filtered array, overwritten by
the colorless flag when supplied). -/
def setColorsW (u : BulkUpdate) (c : CubeCard) : CubeCard :=
  match colorsWrite u with
  | some cs => { c with colors := cs }
  | none => c

/-- Lines 792-794: the finish `$set` write. -/
def setFinishW (u : BulkUpdate) (c : CubeCard) : CubeCard :=
  match u.finish with
  | some f => if f = "" then c else { c with finish := f }
  | none => c

/-- Lines 776-794 applied to one selected card: the `$set` writes for
status, cmc, type line, colors and finish, in source order. -/
def bulkCard (u : BulkUpdate) (c : CubeCard) : CubeCard :=
  setFinishW u (setColorsW u (setTypeLineW u (setCmcW u (setStatusW u c))))

/-- The effect of `cube.updateOne(allUpdates)` on the card list: positions
listed in `selected` receive the `$set` writes, every other position is
untouched.  `start` is the position of the head of `l`. -/
def applyBulkAux (u : BulkUpdate) (selected : List Nat) : Nat → List CubeCard → List CubeCard
  | _, [] => []
  | start, c :: cs =>
      (if selected.contains start then bulkCard u c else c) :: applyBulkAux u selected (start + 1) cs

/-- The card list after the bulk route (lines 773-811). -/
def applyBulkUpdates (cards : List CubeCard) (selected : List Nat) (u : BulkUpdate) :
    List CubeCard :=
  applyBulkAux u selected 0 cards

/-! ## Pack generator (modelled from the spec, sections 4.1-4.2) -/

/-- Modelled from the spec: the seeded RNG (serverjs/cubefn.js is not among
the sources).  A fixed, explicitly seedable deterministic PRNG — a 32-bit
linear congruential step — as required by spec section 9; same seed, same
draw sequence. -/
def rngNext (state : Nat) : Nat :=
  (state * 1664525 + 1013904223) % 4294967296

/-- A slot of the pack template: a primary selection predicate and a
fallback predicate, both pure functions of the card (spec section 4.1). -/
structure SlotRule where
  primary : Nat → Bool
  fallback : Nat → Bool

/-- Modelled from the spec, section 4.1: filter the pool by the primary
predicate excluding the cards already chosen in this pack; when empty,
re-filter with the fallback predicate; when still empty fail with
`InsufficientCardsError`; otherwise consume exactly one RNG draw and select
uniformly. -/
def resolveSlot (pool : List Nat) (rule : SlotRule) (chosen : List Nat) (state : Nat) :
    Except String (Nat × Nat) :=
  let primaryCands := pool.filter (fun c => rule.primary c && !(chosen.contains c))
  let cands :=
    if primaryCands.isEmpty then pool.filter (fun c => rule.fallback c && !(chosen.contains c))
    else primaryCands
  if h : cands.length = 0 then Except.error ("InsufficientCardsError")
  else
    let s := rngNext state
    Except.ok (cands.get ⟨s % cands.length, Nat.mod_lt _ (Nat.pos_of_ne_zero h)⟩, s)

/-- Modelled from the spec, section 4.2: iterate the template slot by slot,
accumulating the already-chosen set and threading the RNG state; propagate
`InsufficientCardsError` without partial results. -/
def generatePackAux (pool : List Nat) : List SlotRule → List Nat → Nat → Except String (List Nat)
  | [], _, _ => Except.ok []
  | r :: rs, chosen, state =>
      match resolveSlot pool r chosen state with
      | Except.error e => Except.error e
      | Except.ok (c, s) =>
          match generatePackAux pool rs (c :: chosen) s with
          | Except.error e => Except.error e
          | Except.ok cs => Except.ok (c :: cs)

/-- Modelled from the spec, section 4.2: `generatePack` initializes the RNG
from the given seed and emits the pack in slot order. -/
def generatePack (pool : List Nat) (template : List SlotRule) (seed : Nat) :
    Except String (List Nat) :=
  generatePackAux pool template [] seed

/-! ## Concrete sample data shared by witnesses and counterexamples -/

/-- A sample seat with the given occupant name and a bot descriptor. -/
def mkSeat (uid : Nat) (nm : String) : Seat :=
  { userid := some uid
    name := nm
    bot := some [1, 2]
    drafted := [10]
    sideboard := [11]
    pickorder := [10, 12]
    trashorder := [13] }

/-- A four-seat sample draft (seats A, B, C, D) with a nonempty card pool
and no picks recorded (so it is not complete). -/
def sampleDraft : Draft :=
  { cube := 42
    seats :=
      [ { mkSeat 1 "A" with pickorder := [], trashorder := [] }
      , { mkSeat 2 "B" with pickorder := [], trashorder := [] }
      , { mkSeat 3 "C" with pickorder := [], trashorder := [] }
      , { mkSeat 4 "D" with pickorder := [], trashorder := [] } ]
    basics := [0, 1]
    initial_state := [101, 102, 103]
    cards := [10, 11, 12, 13, 14, 15] }

/-- A three-entry sample featured queue. -/
def sampleQueue : List QueueEntry :=
  [ { cubeID := 100, ownerID := 1 }
  , { cubeID := 200, ownerID := 2 }
  , { cubeID := 300, ownerID := 3 } ]

/-- A four-entry sample featured queue. -/
def sampleQueue4 : List QueueEntry :=
  sampleQueue ++ [ { cubeID := 400, ownerID := 4 } ]

/-- A sample stored cube card. -/
def sampleCard : CubeCard :=
  { cardID := "id1"
    status := "Owned"
    cmc := 2
    type_line := "Creature - Hound"
    colors := ["W"]
    tags := ["New"]
    finish := "Foil" }

/-- The sample acting viewer. -/
def viewer7 : User :=
  { id := 7, username := "viewer" }

/-- A stored card whose type line is missing (empty). -/
def storedNoType : CubeCard :=
  { sampleCard with type_line := "" }

/-- The caller's snapshot of `storedNoType`, carrying the canonical type the
card index reports. -/
def srcSnap : CubeCard :=
  { sampleCard with type_line := "Creature" }

/-- A card-index type lookup reporting the canonical type. -/
def typeIdx : String → String :=
  fun _ => "Creature"

/-- An `updated` body with every key absent. -/
def updAbsent : UpdatedCard :=
  { cardID := JsField.absent
    status := JsField.absent
    cmc := JsField.absent
    type_line := JsField.absent
    colors := JsField.absent
    tags := JsField.absent
    finish := JsField.absent }

/-- A bulk update that supplies a colors array containing a non-color
letter. -/
def bulkU : BulkUpdate :=
  { status := none
    cmc := none
    type_line := none
    colors := some ["W", "X", "U"]
    colorC := false
    finish := none }

/-- A sample persistent draft store holding only `sampleDraft` at id 0. -/
def sampleStore : Nat → Option Draft :=
  fun i => if i = 0 then some sampleDraft else none

/-! ## Helper lemmas -/

theorem clearedSeats_length (seats : List Seat) (k : Nat) :
    (clearedSeats seats k).length = seats.length := by
  unfold clearedSeats botNullAt rotateArrayLeft
  cases h : (seats.rotate k)[k]? <;>
    simp [h, List.length_set, List.length_rotate]

theorem clearedSeats_getElem? (seats : List Seat) (k i : Nat) :
    (clearedSeats seats k)[i]? = ((rotateArrayLeft seats k)[i]?).map clearSeat := by
  unfold clearedSeats botNullAt
  cases h : (rotateArrayLeft seats k)[k]? with
  | none => simp [h, List.getElem?_map]
  | some s =>
      dsimp only
      rw [List.map_set]
      by_cases hik : k = i
      · subst hik
        have hk : k < (rotateArrayLeft seats k).length := by
          by_contra hko
          rw [List.getElem?_eq_none (Nat.le_of_not_lt hko)] at h
          exact Option.noConfusion h
        rw [List.getElem?_set_eq_of_lt _ (by simpa using hk), h]
        rfl
      · rw [List.getElem?_set_ne hik, List.getElem?_map]

theorem redraftSeats_length (seats : List Seat) (k : Nat) (user : Option User) :
    (redraftSeats seats k user).length = seats.length := by
  have h := clearedSeats_length seats k
  unfold redraftSeats
  cases hc : clearedSeats seats k with
  | nil => rw [hc] at h; exact h
  | cons s0 rest => rw [hc] at h; simpa using h

theorem redraftSeats_getElem?_pos (seats : List Seat) (k : Nat) (user : Option User)
    (i : Nat) (h0 : 0 < i) :
    (redraftSeats seats k user)[i]? = (clearedSeats seats k)[i]? := by
  unfold redraftSeats
  cases hc : clearedSeats seats k with
  | nil => simp
  | cons s0 rest =>
      obtain ⟨j, rfl⟩ : ∃ j, i = j + 1 := ⟨i - 1, by omega⟩
      simp

theorem redraftSeats_getElem?_rotated (seats : List Seat) (k : Nat) (user : Option User)
    (i : Nat) (h0 : 0 < i) (hi : i < seats.length) :
    (redraftSeats seats k user)[i]? = (seats[(i + k) % seats.length]?).map clearSeat := by
  rw [redraftSeats_getElem?_pos seats k user i h0, clearedSeats_getElem?]
  unfold rotateArrayLeft
  have h := List.get?_rotate (l := seats) (n := k) hi
  rw [List.get?_eq_getElem?, List.get?_eq_getElem?] at h
  rw [h]

theorem redraftSeats_head (seats : List Seat) (k : Nat) (user : Option User)
    (hk : 0 < seats.length) :
    ∃ x,
      (redraftSeats seats k user)[0]?
        = some { clearSeat x with
                   bot := none, userid := seatViewerId user, name := seatViewerName user } := by
  have hlen := clearedSeats_length seats k
  cases hc : clearedSeats seats k with
  | nil => rw [hc] at hlen; simp only [List.length_nil] at hlen; omega
  | cons s0 rest =>
      have hs0 : (clearedSeats seats k)[0]? = some s0 := by rw [hc]; simp
      rw [clearedSeats_getElem?] at hs0
      obtain ⟨x, _, hxe⟩ := Option.map_eq_some'.mp hs0
      refine ⟨x, ?_⟩
      subst hxe
      unfold redraftSeats
      rw [hc]
      simp

/-! ## Claim C1 -/

/-- Claim C1: for every source seat list and every valid seat index `k`, the
redrafted seat order is the left rotation of the source seats by `k` (seat
`i` of the new draft, for `i ≥ 1`, carries the occupant of source seat
`(i + k) mod n`, and carries a fresh bot descriptor), seat 0 has a null bot
descriptor and the acting viewer's identity (or the anonymous placeholder
when no viewer is present), and every seat's drafted pool, sideboard, pick
order and trash order are empty. -/
theorem redraft_rotation (seats : List Seat) (k : Nat) (user : Option User)
    (hk : k < seats.length) :
    (redraftSeats seats k user).length = seats.length ∧
    (∀ i, 0 < i → i < seats.length →
      ((redraftSeats seats k user)[i]?).map Seat.name
          = (seats[(i + k) % seats.length]?).map Seat.name ∧
      ((redraftSeats seats k user)[i]?).map Seat.userid
          = (seats[(i + k) % seats.length]?).map Seat.userid ∧
      ((redraftSeats seats k user)[i]?).map Seat.bot = some (some [])) ∧
    ((redraftSeats seats k user)[0]?).map Seat.bot = some none ∧
    ((redraftSeats seats k user)[0]?).map Seat.userid = some (seatViewerId user) ∧
    ((redraftSeats seats k user)[0]?).map Seat.name = some (seatViewerName user) ∧
    (∀ i, i < seats.length →
      ((redraftSeats seats k user)[i]?).map Seat.drafted = some [] ∧
      ((redraftSeats seats k user)[i]?).map Seat.sideboard = some [] ∧
      ((redraftSeats seats k user)[i]?).map Seat.pickorder = some [] ∧
      ((redraftSeats seats k user)[i]?).map Seat.trashorder = some []) := by
  have hn : 0 < seats.length := Nat.lt_of_le_of_lt (Nat.zero_le k) hk
  obtain ⟨x, hx⟩ := redraftSeats_head seats k user hn
  have hrot : ∀ i, 0 < i → i < seats.length →
      (redraftSeats seats k user)[i]? = (seats[(i + k) % seats.length]?).map clearSeat :=
    fun i h0 hi => redraftSeats_getElem?_rotated seats k user i h0 hi
  have hsome : ∀ i, i < seats.length → ∃ s, seats[(i + k) % seats.length]? = some s := by
    intro i hi
    have hm : (i + k) % seats.length < seats.length := Nat.mod_lt _ hn
    exact ⟨seats.get ⟨(i + k) % seats.length, hm⟩, List.getElem?_eq_getElem hm⟩
  refine ⟨redraftSeats_length seats k user, ?_, ?_, ?_, ?_, ?_⟩
  · intro i h0 hi
    obtain ⟨s, hs⟩ := hsome i hi
    rw [hrot i h0 hi, hs]
    exact ⟨rfl, rfl, rfl⟩
  · rw [hx]; rfl
  · rw [hx]; rfl
  · rw [hx]; rfl
  · intro i hi
    rcases Nat.eq_zero_or_pos i with h0 | h0
    · subst h0
      rw [hx]
      exact ⟨rfl, rfl, rfl, rfl⟩
    · obtain ⟨s, hs⟩ := hsome i hi
      rw [hrot i h0 hi, hs]
      exact ⟨rfl, rfl, rfl, rfl⟩

/-- Witness for C1: the four-seat sample draft redrafted from seat 2 by the
sample viewer. -/
theorem redraft_rotation_witness :
    2 < sampleDraft.seats.length ∧
    ((redraftSeats sampleDraft.seats 2 (some viewer7)).length = sampleDraft.seats.length ∧
    (∀ i, 0 < i → i < sampleDraft.seats.length →
      ((redraftSeats sampleDraft.seats 2 (some viewer7))[i]?).map Seat.name
          = (sampleDraft.seats[(i + 2) % sampleDraft.seats.length]?).map Seat.name ∧
      ((redraftSeats sampleDraft.seats 2 (some viewer7))[i]?).map Seat.userid
          = (sampleDraft.seats[(i + 2) % sampleDraft.seats.length]?).map Seat.userid ∧
      ((redraftSeats sampleDraft.seats 2 (some viewer7))[i]?).map Seat.bot = some (some [])) ∧
    ((redraftSeats sampleDraft.seats 2 (some viewer7))[0]?).map Seat.bot = some none ∧
    ((redraftSeats sampleDraft.seats 2 (some viewer7))[0]?).map Seat.userid
        = some (seatViewerId (some viewer7)) ∧
    ((redraftSeats sampleDraft.seats 2 (some viewer7))[0]?).map Seat.name
        = some (seatViewerName (some viewer7)) ∧
    (∀ i, i < sampleDraft.seats.length →
      ((redraftSeats sampleDraft.seats 2 (some viewer7))[i]?).map Seat.drafted = some [] ∧
      ((redraftSeats sampleDraft.seats 2 (some viewer7))[i]?).map Seat.sideboard = some [] ∧
      ((redraftSeats sampleDraft.seats 2 (some viewer7))[i]?).map Seat.pickorder = some [] ∧
      ((redraftSeats sampleDraft.seats 2 (some viewer7))[i]?).map Seat.trashorder = some [])) :=
  ⟨by decide, redraft_rotation sampleDraft.seats 2 (some viewer7) (by decide)⟩

/-! ## Claim C2 -/

/-- Claim C2: for every source draft and seat index, the redrafted draft's
flattened card pool and `initial_state` seed sequence are identical to the
source draft's — same values in the same order, hence the same length. -/
theorem redraft_preserves_packs (src : Draft) (k : Nat) (user : Option User) :
    (redraftDraft src k user).cards = src.cards ∧
    (redraftDraft src k user).cards.length = src.cards.length ∧
    (redraftDraft src k user).initial_state = src.initial_state ∧
    (redraftDraft src k user).initial_state.length = src.initial_state.length :=
  ⟨rfl, rfl, rfl, rfl⟩

/-! ## Claim C3 -/

/-- Claim C3: for a fixed cube pool snapshot, pack template and seed, two
invocations of `generatePack` return identical results — the pack generator
is a pure function of its three inputs (predicates are pure and the RNG is
fully determined by the seed), so the two runs agree definitionally. -/
theorem generatePack_deterministic (pool : List Nat) (template : List SlotRule) (seed : Nat) :
    generatePack pool template seed = generatePack pool template seed :=
  rfl

/-! ## Claim C4 -/

/-- Counterexample to claim C4: the sample draft has made no picks at all
(it is not complete), yet the redraft route accepts it and builds the new
draft — there is no lifecycle-state check and no `InvalidStateError` path in
the handler. -/
theorem redraft_incomplete_accepted :
    draftComplete sampleDraft = false ∧
    redraftRoute (some sampleDraft) "0" none true
      = RedraftResult.success (redraftDraft sampleDraft 0 none) :=
  ⟨rfl, rfl⟩

/-- Claim C4 as amended: the redraft route performs no lifecycle-state check
on the source draft; for any existing source draft — complete or not — with
a parseable in-range seat parameter and a viewable cube, it succeeds and
builds the new draft. -/
theorem redraft_no_state_check (src : Draft) (s : String) (z : Int) (user : Option User)
    (hp : parseIntBase10 s = some z) (h0 : 0 ≤ z) (hz : z < (src.seats.length : Int)) :
    redraftRoute (some src) s user true = RedraftResult.success (redraftDraft src z.toNat user) := by
  unfold redraftRoute
  rw [hp]
  have hcond : ¬(z < 0 ∨ (src.seats.length : Int) ≤ z) := by omega
  simp [hcond]

/-- Witness for the amended C4, at seat parameter "2" of the (incomplete)
sample draft. -/
theorem redraft_no_state_check_witness :
    parseIntBase10 "2" = some 2 ∧ (0 : Int) ≤ 2 ∧ (2 : Int) < (sampleDraft.seats.length : Int) ∧
    redraftRoute (some sampleDraft) "2" none true
      = RedraftResult.success (redraftDraft sampleDraft 2 none) :=
  ⟨rfl, by decide, by decide,
    redraft_no_state_check sampleDraft "2" 2 none rfl (by decide) (by decide)⟩

/-! ## Claim C5 -/

/-- Counterexample to claim C5: the seat parameter "1.5" is not an integer,
yet the route accepts it — `parseInt` keeps the longest leading digit run,
so "1.5" is treated as seat 1 and a new draft is built instead of a
validation failure. -/
theorem redraft_nonInteger_seat_accepted :
    decimalIntOfString? "1.5" = none ∧
    redraftRoute (some sampleDraft) "1.5" none true
      = RedraftResult.success (redraftDraft sampleDraft 1 none) :=
  ⟨rfl, rfl⟩

/-- Claim C5 as amended: the seat parameter is parsed with
`parseInt(seat, 10)`; the route rejects with the validation redirect exactly
when the parse yields NaN or the parsed value is outside `[0, seatCount)`
(so a non-integer parameter whose longest leading digit run is in range is
accepted as that seat), and every parameter parsing to an integer in
`[0, seatCount)` passes validation. -/
theorem redraft_seat_validation (src : Draft) (s : String) (user : Option User) (v : Bool) :
    (parseIntBase10 s = none →
      redraftRoute (some src) s user v = RedraftResult.invalidSeat) ∧
    (∀ z : Int, parseIntBase10 s = some z → (z < 0 ∨ (src.seats.length : Int) ≤ z) →
      redraftRoute (some src) s user v = RedraftResult.invalidSeat) ∧
    (∀ z : Int, parseIntBase10 s = some z → 0 ≤ z → z < (src.seats.length : Int) →
      redraftRoute (some src) s user v ≠ RedraftResult.invalidSeat) := by
  refine ⟨?_, ?_, ?_⟩
  · intro hp
    unfold redraftRoute
    rw [hp]
  · intro z hp hrange
    unfold redraftRoute
    rw [hp]
    simp [hrange]
  · intro z hp h0 hz
    unfold redraftRoute
    rw [hp]
    have hcond : ¬(z < 0 ∨ (src.seats.length : Int) ≤ z) := by omega
    simp only [hcond, if_false]
    cases v <;> simp

/-- Witness for the amended C5: a NaN parameter, an out-of-range parameter
and an in-range parameter against the sample draft. -/
theorem redraft_seat_validation_witness :
    redraftRoute (some sampleDraft) "abc" none true = RedraftResult.invalidSeat ∧
    redraftRoute (some sampleDraft) "7" none true = RedraftResult.invalidSeat ∧
    redraftRoute (some sampleDraft) "2" none true ≠ RedraftResult.invalidSeat :=
  ⟨(redraft_seat_validation sampleDraft "abc" none true).1 rfl,
   (redraft_seat_validation sampleDraft "7" none true).2.1 7 rfl (by decide),
   (redraft_seat_validation sampleDraft "2" none true).2.2 2 rfl (by decide) (by decide)⟩

/-! ## Claim C6 -/

/-- Claim C6: redraft saves the new draft under a fresh id and never writes
to the source draft (or any other stored draft): after the route, the store
entry of the source id — hence every field of the source draft, its seats'
bot descriptors, drafted pools, sideboards, pick orders and trash orders —
is exactly what it was before, and on success the new Draft Session entity
is stored at the fresh id. -/
theorem redraft_source_untouched (store : Nat → Option Draft) (srcId newId : Nat)
    (s : String) (user : Option User) (v : Bool) (hne : newId ≠ srcId) :
    (redraftSave store srcId newId s user v).1 srcId = store srcId ∧
    (∀ i, i ≠ newId → (redraftSave store srcId newId s user v).1 i = store i) ∧
    (∀ d, (redraftSave store srcId newId s user v).2 = RedraftResult.success d →
      (redraftSave store srcId newId s user v).1 newId = some d) := by
  unfold redraftSave
  cases hr : redraftRoute (store srcId) s user v with
  | success d =>
      refine ⟨?_, ?_, ?_⟩
      · exact if_neg (fun h => hne (h.symm))
      · intro i hi
        exact if_neg hi
      · intro d' hd
        cases hd
        exact if_pos rfl
  | noDraft => exact ⟨rfl, fun i _ => rfl, fun d hd => by cases hd⟩
  | invalidSeat => exact ⟨rfl, fun i _ => rfl, fun d hd => by cases hd⟩
  | cubeGone => exact ⟨rfl, fun i _ => rfl, fun d hd => by cases hd⟩

/-- Witness for C6: the sample store, source id 0, fresh id 1. -/
theorem redraft_source_untouched_witness :
    (redraftSave sampleStore 0 1 "2" none true).1 0 = sampleStore 0 ∧
    (∀ i, i ≠ 1 → (redraftSave sampleStore 0 1 "2" none true).1 i = sampleStore i) ∧
    (∀ d, (redraftSave sampleStore 0 1 "2" none true).2 = RedraftResult.success d →
      (redraftSave sampleStore 0 1 "2" none true).1 1 = some d) :=
  redraft_source_untouched sampleStore 0 1 "2" none true (by decide)

/-! ## Claim C7 -/

/-- Claim C7: unqueueing a cube that sits at queue position 0 or 1 (a
currently featured entry) always fails with the domain error and leaves the
queue unchanged; unqueueing a cube at position 2 or later removes exactly
that entry (the rest of the queue in order) and returns it. -/
theorem unqueue_spec (queue : List QueueEntry) (cubeId : Nat) (idx : Nat)
    (hfind : queue.findIdx (fun c => c.cubeID == cubeId) = idx) (hlt : idx < queue.length) :
    (idx < 2 →
      unqueueRoute queue cubeId
        = (queue, Except.error ("Cannot remove currently featured cube from queue"))) ∧
    (2 ≤ idx →
      unqueueRoute queue cubeId
        = (queue.eraseIdx idx, Except.ok [queue.get ⟨idx, hlt⟩])) := by
  have hne : idx ≠ queue.length := Nat.ne_of_lt hlt
  constructor
  · intro h2
    unfold unqueueRoute updateFeatured unqueueTransform
    dsimp only
    rw [hfind, if_neg hne, if_pos h2]
  · intro h2
    unfold unqueueRoute updateFeatured unqueueTransform
    dsimp only
    rw [hfind, if_neg hne, if_neg (Nat.not_lt.mpr h2)]
    have hdrop : (queue.drop idx).take 1 = [queue.get ⟨idx, hlt⟩] := by
      rw [List.drop_eq_getElem_cons hlt]
      rfl
    rw [hdrop]

/-- Witness for C7: the three-entry sample queue — removing the cube at
position 0 fails and leaves the queue unchanged; removing the cube at
position 2 removes exactly that entry. -/
theorem unqueue_spec_witness :
    unqueueRoute sampleQueue 100
      = (sampleQueue, Except.error ("Cannot remove currently featured cube from queue")) ∧
    unqueueRoute sampleQueue 300
      = (sampleQueue.eraseIdx 2, Except.ok [sampleQueue.get ⟨2, by decide⟩]) :=
  ⟨(unqueue_spec sampleQueue 100 0 (by decide) (by decide)).1 (by decide),
   (unqueue_spec sampleQueue 300 2 (by decide) (by decide)).2 (by decide)⟩

/-! ## Claim C8 -/

theorem moveUpdate_spec (queue : List QueueEntry) (cubeId : Nat) (i j : Nat)
    (hi : i < queue.length) (hid : (queue.get ⟨i, hi⟩).cubeID = cubeId) :
    (queue.length ≤ j →
      updateFeatured queue (fun q => moveTransform q cubeId i j)
        = (queue, Except.error ("Target position is higher than cube length"))) ∧
    (j < queue.length →
      updateFeatured queue (fun q => moveTransform q cubeId i j)
        = ((queue.eraseIdx i).insertIdx j (queue.get ⟨i, hi⟩), Except.ok ()) ∧
      ((queue.eraseIdx i).insertIdx j (queue.get ⟨i, hi⟩)).eraseIdx j = queue.eraseIdx i ∧
      ((queue.eraseIdx i).insertIdx j (queue.get ⟨i, hi⟩))[j]?
          = some (queue.get ⟨i, hi⟩)) := by
  have hje : (queue.eraseIdx i).length = queue.length - 1 := by
    rw [List.length_eraseIdx]
    simp [hi]
  constructor
  · intro hj
    unfold updateFeatured moveTransform
    dsimp only
    rw [dif_pos hi, if_neg (fun h => h hid), if_pos hj]
  · intro hj
    have hjle : j ≤ (queue.eraseIdx i).length := by omega
    refine ⟨?_, List.eraseIdx_insertIdx j (queue.eraseIdx i), ?_⟩
    · unfold updateFeatured moveTransform
      dsimp only
      rw [dif_pos hi, if_neg (fun h => h hid), if_neg (Nat.not_le.mpr hj)]
    · have hlt : j < ((queue.eraseIdx i).insertIdx j (queue.get ⟨i, hi⟩)).length := by
        rw [List.length_insertIdx j _ hjle]
        omega
      rw [List.getElem?_eq_getElem hlt]
      exact congrArg some (List.getElem_insertIdx_self (queue.eraseIdx i) (queue.get ⟨i, hi⟩) j hjle)

/-- Claim C8: a move request whose validated human-indexed parameters pass
the route's `isInt(gt 2)` validators (so neither index can name a featured
position; failing requests are rejected without mutating the queue) and
whose source position holds the expected cube fails with the domain error
and leaves the queue unchanged whenever the zero-based target index is
greater than or equal to the queue length; otherwise the move succeeds: the
moved entry is removed from its source index and reinserted at the target
index (it sits at the target position, and erasing it there recovers the
queue with only the source removal applied, so all other entries keep their
relative order). -/
theorem move_spec (queue : List QueueEntry) (cubeId : Nat) (fromParam toParam : Int) :
    (fromParam ≤ 2 →
      moveRoute queue cubeId fromParam toParam
        = (queue, Except.error ("Cannot move currently featured cube"))) ∧
    (2 < fromParam → toParam ≤ 2 →
      moveRoute queue cubeId fromParam toParam
        = (queue, Except.error ("Cannot move cube to featured position"))) ∧
    (∀ (hfrom : 2 < fromParam) (hto : 2 < toParam)
        (hi : (fromParam - 1).toNat < queue.length),
      (queue.get ⟨(fromParam - 1).toNat, hi⟩).cubeID = cubeId →
      (queue.length ≤ (toParam - 1).toNat →
        moveRoute queue cubeId fromParam toParam
          = (queue, Except.error ("Target position is higher than cube length"))) ∧
      ((toParam - 1).toNat < queue.length →
        moveRoute queue cubeId fromParam toParam
          = ((queue.eraseIdx (fromParam - 1).toNat).insertIdx (toParam - 1).toNat
               (queue.get ⟨(fromParam - 1).toNat, hi⟩), Except.ok ()) ∧
        ((queue.eraseIdx (fromParam - 1).toNat).insertIdx (toParam - 1).toNat
            (queue.get ⟨(fromParam - 1).toNat, hi⟩)).eraseIdx (toParam - 1).toNat
          = queue.eraseIdx (fromParam - 1).toNat ∧
        ((queue.eraseIdx (fromParam - 1).toNat).insertIdx (toParam - 1).toNat
            (queue.get ⟨(fromParam - 1).toNat, hi⟩))[(toParam - 1).toNat]?
          = some (queue.get ⟨(fromParam - 1).toNat, hi⟩))) := by
  refine ⟨?_, ?_, ?_⟩
  · intro hf
    unfold moveRoute
    rw [if_pos hf]
  · intro hf ht
    unfold moveRoute
    rw [if_neg (Int.not_le.mpr hf), if_pos ht]
  · intro hfrom hto hi hid
    have hroute : moveRoute queue cubeId fromParam toParam
        = updateFeatured queue
            (fun q => moveTransform q cubeId (fromParam - 1).toNat (toParam - 1).toNat) := by
      unfold moveRoute
      rw [if_neg (Int.not_le.mpr hfrom), if_neg (Int.not_le.mpr hto)]
    rw [hroute]
    exact moveUpdate_spec queue cubeId (fromParam - 1).toNat (toParam - 1).toNat hi hid

/-- Witness for C8: the four-entry sample queue and the cube at zero-based
position 3 (human index 4) — human source 1 and human target 2 are rejected
by validation without mutation, human target 9 (zero-based 8, beyond the
queue) fails the length check without mutation, and human target 3
(zero-based 2) moves the entry to position 2 with the others in order. -/
theorem move_spec_witness :
    (moveRoute sampleQueue4 400 1 3
      = (sampleQueue4, Except.error ("Cannot move currently featured cube"))) ∧
    (moveRoute sampleQueue4 400 4 2
      = (sampleQueue4, Except.error ("Cannot move cube to featured position"))) ∧
    (moveRoute sampleQueue4 400 4 9
      = (sampleQueue4, Except.error ("Target position is higher than cube length"))) ∧
    (moveRoute sampleQueue4 400 4 3
      = ((sampleQueue4.eraseIdx 3).insertIdx 2 (sampleQueue4.get ⟨3, by decide⟩),
         Except.ok ()) ∧
    ((sampleQueue4.eraseIdx 3).insertIdx 2 (sampleQueue4.get ⟨3, by decide⟩)).eraseIdx 2
        = sampleQueue4.eraseIdx 3 ∧
    ((sampleQueue4.eraseIdx 3).insertIdx 2 (sampleQueue4.get ⟨3, by decide⟩))[2]?
        = some (sampleQueue4.get ⟨3, by decide⟩)) :=
  ⟨(move_spec sampleQueue4 400 1 3).1 (by decide),
   (move_spec sampleQueue4 400 4 2).2.1 (by decide) (by decide),
   ((move_spec sampleQueue4 400 4 9).2.2 (by decide) (by decide) (by decide)
      (by decide)).1 (by decide),
   ((move_spec sampleQueue4 400 4 3).2.2 (by decide) (by decide) (by decide)
      (by decide)).2 (by decide)⟩

/-! ## Claim C9 -/

/-- Counterexample to claim C9: a stored card whose type line is missing is
not equivalent, as stored, to the caller's snapshot (which carries the
card's canonical type), yet the route replaces it anyway — the handler
defaults the missing stored type line from the card index before running
the equivalence check. -/
theorem updateCard_normalization_counterexample :
    cardsAreEquivalent srcSnap storedNoType = false ∧
    updateCard typeIdx sampleCard [storedNoType] 0 srcSnap updAbsent
      = UpdateCardResult.success [{ storedNoType with type_line := "Creature" }] :=
  ⟨rfl, rfl⟩

/-- Claim C9 as amended: the update-by-index route replaces the card at
`src.index` exactly when `src.index` is within the card list and the stored
card — after defaulting a missing (empty) type line to the canonical type
from the card index — is equivalent to the caller's `src` snapshot;
otherwise it rejects with a validation failure (no-such-card or
not-equivalent) and the persisted card list is unchanged. -/
theorem updateCard_spec (typeFromId : String → String) (defaults : CubeCard)
    (cards : List CubeCard) (index : Nat) (src : CubeCard) (updated : UpdatedCard) :
    (cards.length ≤ index →
      updateCardApply typeFromId defaults cards index src updated
        = (cards, UpdateCardResult.noSuchCard)) ∧
    (∀ h : index < cards.length,
      (cardsAreEquivalent src (normalizeTypeLine typeFromId (cards.get ⟨index, h⟩)) = false →
        updateCardApply typeFromId defaults cards index src updated
          = (cards, UpdateCardResult.notEquivalent)) ∧
      (cardsAreEquivalent src (normalizeTypeLine typeFromId (cards.get ⟨index, h⟩)) = true →
        updateCardApply typeFromId defaults cards index src updated
          = (cards.set index
               (mergeCard defaults (normalizeTypeLine typeFromId (cards.get ⟨index, h⟩)) updated),
             UpdateCardResult.success
               (cards.set index
                 (mergeCard defaults (normalizeTypeLine typeFromId (cards.get ⟨index, h⟩))
                   updated))))) := by
  constructor
  · intro hle
    unfold updateCardApply updateCard
    rw [dif_neg (Nat.not_lt.mpr hle)]
  · intro h
    constructor
    · intro hne
      unfold updateCardApply updateCard
      rw [dif_pos h]
      dsimp only
      rw [hne]
      rfl
    · intro heq
      unfold updateCardApply updateCard
      rw [dif_pos h]
      dsimp only
      rw [heq]
      rfl

/-- Witness for the amended C9: in-range index with an equivalent snapshot
of the sample card (nonempty type line, so normalization is the
identity). -/
theorem updateCard_spec_witness :
    updateCardApply typeIdx sampleCard [sampleCard] 0 sampleCard updAbsent
      = ([sampleCard].set 0
           (mergeCard sampleCard (normalizeTypeLine typeIdx ([sampleCard].get ⟨0, by decide⟩))
             updAbsent),
         UpdateCardResult.success
           ([sampleCard].set 0
             (mergeCard sampleCard (normalizeTypeLine typeIdx ([sampleCard].get ⟨0, by decide⟩))
               updAbsent))) :=
  ((updateCard_spec typeIdx sampleCard [sampleCard] 0 sampleCard updAbsent).2
    (by decide)).2 (by decide)

/-! ## Claim C10 helper lemmas -/

theorem setStatusW_colors (u : BulkUpdate) (c : CubeCard) :
    (setStatusW u c).colors = c.colors := by
  unfold setStatusW
  cases hs : u.status with
  | none => rfl
  | some s => by_cases h : s = "" <;> simp [h]

theorem setCmcW_colors (u : BulkUpdate) (c : CubeCard) :
    (setCmcW u c).colors = c.colors := by
  unfold setCmcW
  cases hs : u.cmc with
  | none => rfl
  | some v => by_cases h : v = 0 <;> simp [h]

theorem setTypeLineW_colors (u : BulkUpdate) (c : CubeCard) :
    (setTypeLineW u c).colors = c.colors := by
  unfold setTypeLineW
  cases hs : u.type_line with
  | none => rfl
  | some t => by_cases h : t = "" <;> simp [h]

theorem setFinishW_colors (u : BulkUpdate) (c : CubeCard) :
    (setFinishW u c).colors = c.colors := by
  unfold setFinishW
  cases hs : u.finish with
  | none => rfl
  | some f => by_cases h : f = "" <;> simp [h]

theorem setColorsW_colors (u : BulkUpdate) (c : CubeCard) :
    (setColorsW u c).colors = (colorsWrite u).getD c.colors := by
  unfold setColorsW
  cases hw : colorsWrite u <;> simp

theorem bulkCard_colors (u : BulkUpdate) (c : CubeCard) :
    (bulkCard u c).colors = (colorsWrite u).getD c.colors := by
  unfold bulkCard
  rw [setFinishW_colors, setColorsW_colors, setTypeLineW_colors, setCmcW_colors,
    setStatusW_colors]

theorem colorsWrite_isSome (u : BulkUpdate) (h : u.colors.isSome = true) :
    (colorsWrite u).isSome = true := by
  unfold colorsWrite
  by_cases hc : u.colorC
  · rw [if_pos hc]; rfl
  · rw [if_neg hc]
    obtain ⟨cs, hcs⟩ := Option.isSome_iff_exists.mp h
    rw [hcs]
    rfl

theorem colorsWrite_subset (u : BulkUpdate) (cs : List String)
    (h : colorsWrite u = some cs) : ∀ x ∈ cs, x ∈ wubrg := by
  unfold colorsWrite at h
  by_cases hc : u.colorC
  · rw [if_pos hc] at h
    injection h with h2
    subst h2
    intro x hx
    cases hx
  · rw [if_neg hc] at h
    cases hco : u.colors with
    | none => rw [hco] at h; exact Option.noConfusion h
    | some l =>
        rw [hco] at h
        injection h with h2
        subst h2
        intro x hx
        have hpx := (List.mem_filter.mp hx).2
        simpa using hpx

theorem colorsWrite_colorC (u : BulkUpdate) (h : u.colorC = true) :
    colorsWrite u = some [] := by
  unfold colorsWrite
  rw [if_pos h]

theorem applyBulkAux_getElem? (u : BulkUpdate) (selected : List Nat) (start i : Nat)
    (l : List CubeCard) :
    (applyBulkAux u selected start l)[i]?
      = (l[i]?).map (fun c => if selected.contains (start + i) then bulkCard u c else c) := by
  induction l generalizing start i with
  | nil => simp [applyBulkAux]
  | cons c cs ih =>
      cases i with
      | zero => simp [applyBulkAux]
      | succ n =>
          simp only [applyBulkAux, List.getElem?_cons_succ]
          rw [ih (start + 1) n]
          have harith : start + 1 + n = start + (n + 1) := by omega
          rw [harith]

/-! ## Claim C10 -/

/-- Claim C10: the bulk card-update route preserves the color invariant.
For every selected index, when a colors array is supplied every element of
the written colors list lies in WUBRG (the non-letters were filtered out
before the write), and when the colorless flag is supplied the written
colors list is empty. -/
theorem updatecards_colors_invariant (cards : List CubeCard) (selected : List Nat)
    (u : BulkUpdate) (i : Nat) (hi : selected.contains i = true) (c : CubeCard)
    (hc : (applyBulkUpdates cards selected u)[i]? = some c) :
    (u.colors.isSome = true → ∀ x ∈ c.colors, x ∈ wubrg) ∧
    (u.colorC = true → c.colors = []) := by
  unfold applyBulkUpdates at hc
  rw [applyBulkAux_getElem?, Nat.zero_add] at hc
  obtain ⟨c0, hc0, hbc⟩ := Option.map_eq_some'.mp hc
  rw [hi] at hbc
  simp only [if_pos] at hbc
  subst hbc
  constructor
  · intro hsome x hx
    rw [bulkCard_colors] at hx
    obtain ⟨cs, hcs⟩ := Option.isSome_iff_exists.mp (colorsWrite_isSome u hsome)
    rw [hcs] at hx
    simp only [Option.getD_some] at hx
    exact colorsWrite_subset u cs hcs x hx
  · intro hC
    rw [bulkCard_colors, colorsWrite_colorC u hC]
    rfl

/-- Witness for C10: a single-card cube, selection `[0]`, a supplied colors
array containing the non-letter "X" — the written colors are the filtered
`["W", "U"]`, all in WUBRG. -/
theorem updatecards_colors_invariant_witness :
    (bulkU.colors.isSome = true →
      ∀ x ∈ ({ sampleCard with colors := ["W", "U"] } : CubeCard).colors, x ∈ wubrg) ∧
    (bulkU.colorC = true →
      ({ sampleCard with colors := ["W", "U"] } : CubeCard).colors = []) :=
  updatecards_colors_invariant [{ sampleCard with colors := ["W", "X"] }] [0] bulkU 0
    (by decide) ({ sampleCard with colors := ["W", "U"] }) (by rfl)

end CubeCobra
